import Mathlib

/-!
Verification of `verify-structure.py`, a pre-flight structure-verification
script for a financial-aid web application.  The script checks a fixed table
of directories and a fixed table of files under a hardcoded base directory,
prints one status line per check, prints an advisory note about a database
file, and exits 0 when every directory and file check passed, 1 otherwise.

The filesystem is modelled as a map from path strings to an optional entry
kind; `os.path.exists` is existence of any entry, `os.path.isdir` is
existence of a directory entry.  Printing is modelled by accumulating the
printed lines in order; the process exit status is the value returned by
`main` (the script calls `sys.exit(main())`).
-/

/-- Kind of a filesystem entry: a directory, a regular file, or any other
entry type (symlink, socket, ...). -/
inductive EntryKind
  | dir
  | file
  | other
deriving DecidableEq

/-- A filesystem state: each path string either has an entry of some kind or
no entry at all. -/
structure FS where
  entry : String → Option EntryKind

/-- `os.path.exists`: true when any filesystem entry exists at the path. -/
def osPathExists (fs : FS) (p : String) : Bool :=
  (fs.entry p).isSome

/-- `os.path.isdir`: true when the path exists and is a directory. -/
def osPathIsDir (fs : FS) (p : String) : Bool :=
  match fs.entry p with
  | some EntryKind.dir => true
  | _ => false

/-- `pathlib` `/` on a base path and a relative component. -/
def pathJoin (base rel : String) : String :=
  base ++ "/" ++ rel

/-- Python string repetition, `s * n`. -/
def pyStrMul (s : String) : Nat → String
  | 0 => ""
  | n + 1 => s ++ pyStrMul s n

/-- `check_file_exists(path, description)`: returns the result of
`os.path.exists` together with the single line it prints. -/
def check_file_exists (fs : FS) (path description : String) : Bool × String :=
  let exs := osPathExists fs path
  let status := if exs then "✓" else "✗"
  (exs, status ++ " " ++ description ++ ": " ++ path)

/-- `check_directory_exists(path, description)`: returns the result of
`os.path.isdir` together with the single line it prints. -/
def check_directory_exists (fs : FS) (path description : String) : Bool × String :=
  let exs := osPathIsDir fs path
  let status := if exs then "✓" else "✗"
  (exs, status ++ " " ++ description ++ ": " ++ path)

/-- The hardcoded base directory of the project. -/
def base_dir : String := "/home/dpham/Projects/finaid"

/-- The table of directory checks: (relative path, label) pairs. -/
def directories : List (String × String) :=
  [ ("Components", "Blazor Components"),
    ("Components/Pages", "Page Components"),
    ("Components/Forms", "Form Components"),
    ("Components/Documents", "Document Components"),
    ("Components/Dashboard", "Dashboard Components"),
    ("Services", "Service Layer"),
    ("Models", "Data Models"),
    ("Data", "Data Access Layer"),
    ("Configuration", "Configuration Classes") ]

/-- The table of file checks: (relative path, label) pairs. -/
def files : List (String × String) :=
  [ ("Program.cs", "Application Startup"),
    ("appsettings.json", "Application Configuration"),
    ("appsettings.Development.json", "Development Configuration"),
    ("Components/Pages/Documents.razor", "Documents Page"),
    ("Components/Pages/FAFSA.razor", "FAFSA Page"),
    ("Components/Pages/Progress.razor", "Progress Page"),
    ("Components/Forms/FAFSAFormWithAI.razor", "FAFSA AI Form"),
    ("Components/Documents/DocumentUpload.razor", "Document Upload Component"),
    ("Services/Documents/DocumentUIService.cs", "Document UI Service"),
    ("Services/Forms/FormAssistanceService.cs", "Form Assistance Service"),
    ("Services/Dashboard/DashboardDataService.cs", "Dashboard Data Service") ]

/-- The full path of the advisory database file, `base_dir / "finaid-dev.db"`. -/
def dbFull : String := pathJoin base_dir "finaid-dev.db"

/-- `main()`: performs every check in source order, accumulating printed
lines, and returns the exit status paired with the full output.  This is a
line-by-line transcription of the body of `main` in `verify-structure.py`;
the two `for` loops are modelled by left folds that extend the result list
and the output in iteration order. -/
def pymain (fs : FS) : Nat × List String :=
  let out : List String :=
    ["Financial Aid Assistant - Structure Verification", pyStrMul "=" 50]
  let step_dir := directories.foldl
    (fun acc e =>
      let full_path := pathJoin base_dir e.1
      let r := check_directory_exists fs full_path e.2
      (acc.1 ++ [r.1], acc.2 ++ [r.2]))
    (([] : List Bool), out)
  let dir_results := step_dir.1
  let out := step_dir.2 ++ [""]
  let step_file := files.foldl
    (fun acc e =>
      let full_path := pathJoin base_dir e.1
      let r := check_file_exists fs full_path e.2
      (acc.1 ++ [r.1], acc.2 ++ [r.2]))
    (([] : List Bool), out)
  let file_results := step_file.1
  let out := step_file.2 ++ [""]
  let db_file := pathJoin base_dir "finaid-dev.db"
  let db_exists := osPathExists fs db_file
  let status := if db_exists then "✓" else "⚠️"
  let out := out ++ [status ++ " Database File: " ++ db_file]
  let out := if db_exists then out
    else out ++ ["   Note: Database will be created on first run"]
  let out := out ++ [""]
  let all_dirs_ok := dir_results.all id
  let all_files_ok := file_results.all id
  if all_dirs_ok && all_files_ok then
    (0, out ++
      [ "✓ All required components are in place!",
        "✓ Frontend-backend integration is properly configured",
        "✓ Application is ready for manual testing" ])
  else
    (1, out ++
      [ "⚠️  Some components are missing or incomplete",
        "Please check the missing items above" ])

/-- The process exit status, `sys.exit(main())`. -/
def pyExit (fs : FS) : Nat := (pymain fs).1

/-- Everything the process prints, as a list of lines in order. -/
def pyOutput (fs : FS) : List String := (pymain fs).2

/-- The directory-check results, in the declared order of the table. -/
def dirResults (fs : FS) : List Bool :=
  directories.map (fun e => osPathIsDir fs (pathJoin base_dir e.1))

/-- The file-check results, in the declared order of the table. -/
def fileResults (fs : FS) : List Bool :=
  files.map (fun e => osPathExists fs (pathJoin base_dir e.1))

/-- The lines printed by the directory checks, in declared order. -/
def dirLines (fs : FS) : List String :=
  directories.map
    (fun e => (check_directory_exists fs (pathJoin base_dir e.1) e.2).2)

/-- The lines printed by the file checks, in declared order. -/
def fileLines (fs : FS) : List String :=
  files.map (fun e => (check_file_exists fs (pathJoin base_dir e.1) e.2).2)

/-- The two header lines printed before any check. -/
def headerLines : List String :=
  ["Financial Aid Assistant - Structure Verification", pyStrMul "=" 50]

/-- The database-note section of the output: one check line, plus the
first-run note when the database file is absent. -/
def dbBlock (fs : FS) : List String :=
  if osPathExists fs dbFull then
    ["✓ Database File: " ++ dbFull]
  else
    [ "⚠️ Database File: " ++ dbFull,
      "   Note: Database will be created on first run" ]

/-- The final summary block: three confirmation lines on success, a warning
line and a hint on failure. -/
def summaryBlock (fs : FS) : List String :=
  if (dirResults fs).all id && (fileResults fs).all id then
    [ "✓ All required components are in place!",
      "✓ Frontend-backend integration is properly configured",
      "✓ Application is ready for manual testing" ]
  else
    [ "⚠️  Some components are missing or incomplete",
      "Please check the missing items above" ]

/-- A filesystem state in which every checked path is present (as a
directory) except the database file, which is absent. -/
def fsNoDb : FS :=
  ⟨fun p => if p = dbFull then none else some EntryKind.dir⟩

/-- A filesystem state in which every path has a directory entry. -/
def fsAllPresent : FS :=
  ⟨fun _ => some EntryKind.dir⟩

/-- The empty filesystem state: no path has an entry. -/
def fsEmpty : FS :=
  ⟨fun _ => none⟩

/-- A filesystem state whose only entry is a directory sitting at the
database path. -/
def fsDbDir : FS :=
  ⟨fun p => if p = dbFull then some EntryKind.dir else none⟩

/-- A filesystem state whose only entry is a regular file sitting at the
database path. -/
def fsOneFile : FS :=
  ⟨fun p => if p = dbFull then some EntryKind.file else none⟩

/-- A left fold that appends one result and one output line per element
collects exactly the two maps, in element order. -/
theorem foldl_collect {α : Type} (f : α → Bool) (g : α → String) :
    ∀ (l : List α) (acc : List Bool) (out : List String),
      l.foldl (fun a e => (a.1 ++ [f e], a.2 ++ [g e])) (acc, out)
        = (acc ++ l.map f, out ++ l.map g) := by
  intro l
  induction l with
  | nil => intro acc out; simp
  | cons x xs ih => intro acc out; simp [ih]

/-- The booleans collected by the directory loop are the directory results. -/
theorem dirResults_eq (fs : FS) :
    directories.map
        (fun e => (check_directory_exists fs (pathJoin base_dir e.1) e.2).1)
      = dirResults fs := rfl

/-- The booleans collected by the file loop are the file results. -/
theorem fileResults_eq (fs : FS) :
    files.map (fun e => (check_file_exists fs (pathJoin base_dir e.1) e.2).1)
      = fileResults fs := rfl

/-- The lines printed by the directory loop are the directory lines. -/
theorem dirLines_eq (fs : FS) :
    directories.map
        (fun e => (check_directory_exists fs (pathJoin base_dir e.1) e.2).2)
      = dirLines fs := rfl

/-- The lines printed by the file loop are the file lines. -/
theorem fileLines_eq (fs : FS) :
    files.map (fun e => (check_file_exists fs (pathJoin base_dir e.1) e.2).2)
      = fileLines fs := rfl

/-- The database path built inside `main` is `dbFull`. -/
theorem dbFull_eq : pathJoin base_dir "finaid-dev.db" = dbFull := rfl

/-- Master decomposition: the transcription of `main` equals the exit status
computed from the two result sequences, paired with the output assembled
from header, directory lines, file lines, database note and summary. -/
theorem pymain_eq (fs : FS) :
    pymain fs =
      (if (dirResults fs).all id && (fileResults fs).all id then 0 else 1,
        headerLines ++ dirLines fs ++ [""] ++ fileLines fs ++ [""]
          ++ dbBlock fs ++ [""] ++ summaryBlock fs) := by
  simp only [pymain, foldl_collect, List.nil_append, dirResults_eq,
    fileResults_eq, dirLines_eq, fileLines_eq, dbFull_eq, headerLines,
    List.append_assoc]
  rcases Bool.eq_false_or_eq_true (osPathExists fs dbFull) with hdb | hdb <;>
    rcases Bool.eq_false_or_eq_true
        ((dirResults fs).all id && (fileResults fs).all id) with hC | hC <;>
      simp [hdb, hC, dbBlock, summaryBlock, List.append_assoc]

/-- C1: the exit status is 0 exactly when the conjunction of the nine
directory results and the conjunction of the eleven file results are both
true; in that case the summary is the two confirmation lines and the
readiness line; otherwise the exit status is 1 and the summary is the
warning line and the review hint; no exit status other than 0 or 1 occurs;
the output ends with the summary block. -/
theorem c1_exit_and_summary (fs : FS) :
    (pyExit fs = 0 ↔
      ((dirResults fs).all id = true ∧ (fileResults fs).all id = true))
    ∧ (pyExit fs = 0 ∨ pyExit fs = 1)
    ∧ ((dirResults fs).all id = true ∧ (fileResults fs).all id = true →
        pyExit fs = 0 ∧
        summaryBlock fs =
          [ "✓ All required components are in place!",
            "✓ Frontend-backend integration is properly configured",
            "✓ Application is ready for manual testing" ])
    ∧ (¬((dirResults fs).all id = true ∧ (fileResults fs).all id = true) →
        pyExit fs = 1 ∧
        summaryBlock fs =
          [ "⚠️  Some components are missing or incomplete",
            "Please check the missing items above" ])
    ∧ pyOutput fs =
        headerLines ++ dirLines fs ++ [""] ++ fileLines fs ++ [""]
          ++ dbBlock fs ++ [""] ++ summaryBlock fs := by
  have hexit : pyExit fs
      = if (dirResults fs).all id && (fileResults fs).all id then 0 else 1 := by
    unfold pyExit; rw [pymain_eq fs]
  have hout : pyOutput fs
      = headerLines ++ dirLines fs ++ [""] ++ fileLines fs ++ [""]
          ++ dbBlock fs ++ [""] ++ summaryBlock fs := by
    unfold pyOutput; rw [pymain_eq fs]
  rcases Bool.eq_false_or_eq_true ((dirResults fs).all id) with h1 | h1 <;>
    rcases Bool.eq_false_or_eq_true ((fileResults fs).all id) with h2 | h2 <;>
      simp [hexit, hout, h1, h2, summaryBlock]

/-- C1 witness: on a filesystem with every entry present, the exit status is
0 and the summary is the confirmation block. -/
theorem c1_witness :
    pyExit fsAllPresent = 0 ∧
    summaryBlock fsAllPresent =
      [ "✓ All required components are in place!",
        "✓ Frontend-backend integration is properly configured",
        "✓ Application is ready for manual testing" ] :=
  (c1_exit_and_summary fsAllPresent).2.2.1 ⟨by decide, by decide⟩

/-- C2: two filesystem states that agree on every listed directory path and
every listed file path get the same exit status, whatever either says about
the database file; and when every directory and file check passes but the
database file is absent, the exit status is still 0 and the database section
shows the advisory glyph and note. -/
theorem c2_db_never_affects_exit :
    (∀ fs1 fs2 : FS,
      (∀ p ∈ directories.map (fun e => pathJoin base_dir e.1),
        osPathIsDir fs1 p = osPathIsDir fs2 p) →
      (∀ p ∈ files.map (fun e => pathJoin base_dir e.1),
        osPathExists fs1 p = osPathExists fs2 p) →
      pyExit fs1 = pyExit fs2)
    ∧ (∀ fs : FS,
        (dirResults fs).all id = true → (fileResults fs).all id = true →
        osPathExists fs dbFull = false →
        pyExit fs = 0 ∧
        dbBlock fs =
          [ "⚠️ Database File: " ++ dbFull,
            "   Note: Database will be created on first run" ]) := by
  constructor
  · intro fs1 fs2 h1 h2
    have hd : dirResults fs1 = dirResults fs2 := by
      unfold dirResults
      exact List.map_congr_left fun e he =>
        h1 _ (List.mem_map_of_mem _ he)
    have hf : fileResults fs1 = fileResults fs2 := by
      unfold fileResults
      exact List.map_congr_left fun e he =>
        h2 _ (List.mem_map_of_mem _ he)
    unfold pyExit
    rw [pymain_eq fs1, pymain_eq fs2, hd, hf]
  · intro fs hdall hfall hdb
    constructor
    · unfold pyExit
      rw [pymain_eq fs, hdall, hfall]
      simp
    · simp [dbBlock, hdb]

/-- C2 witness: a state with everything present except the database file
exits with the same status as a state with everything present, that status
is 0, and the database section is the advisory glyph and note. -/
theorem c2_witness :
    pyExit fsNoDb = pyExit fsAllPresent ∧ pyExit fsNoDb = 0 ∧
    dbBlock fsNoDb =
      [ "⚠️ Database File: " ++ dbFull,
        "   Note: Database will be created on first run" ] := by
  refine ⟨c2_db_never_affects_exit.1 fsNoDb fsAllPresent (by decide) (by decide),
    (c2_db_never_affects_exit.2 fsNoDb (by decide) (by decide) (by decide)).1,
    (c2_db_never_affects_exit.2 fsNoDb (by decide) (by decide) (by decide)).2⟩

/-- C3: the directory check succeeds exactly on directory entries (false on
any non-directory entry), while the generic file check succeeds exactly when
any entry exists, a directory included. -/
theorem c3_check_semantics (fs : FS) (p d : String) :
    ((check_directory_exists fs p d).1 = true ↔
      fs.entry p = some EntryKind.dir)
    ∧ ((check_file_exists fs p d).1 = true ↔ (fs.entry p).isSome = true)
    ∧ (fs.entry p = some EntryKind.dir →
        (check_file_exists fs p d).1 = true ∧
        (check_directory_exists fs p d).1 = true)
    ∧ (∀ k : EntryKind, k ≠ EntryKind.dir → fs.entry p = some k →
        (check_directory_exists fs p d).1 = false ∧
        (check_file_exists fs p d).1 = true) := by
  rcases hk : fs.entry p with _ | k
  · simp [check_directory_exists, check_file_exists, osPathIsDir,
      osPathExists, hk]
  · cases k <;>
      simp [check_directory_exists, check_file_exists, osPathIsDir,
        osPathExists, hk]
    exact fun k hkd hdk => hkd hdk.symm

/-- C3 witness: with a directory entry at the database path, both checkers
accept it; with a regular-file entry there, the directory checker rejects
it. -/
theorem c3_witness :
    ((check_file_exists fsDbDir dbFull "Database File").1 = true ∧
      (check_directory_exists fsDbDir dbFull "Database File").1 = true) ∧
    (check_directory_exists fsOneFile dbFull "Database File").1 = false :=
  ⟨(c3_check_semantics fsDbDir dbFull "Database File").2.2.1 (by decide),
    ((c3_check_semantics fsOneFile dbFull "Database File").2.2.2
      EntryKind.file (by decide) (by decide)).1⟩

/-- C4: the output is the header, then the directory check lines in declared
table order, a blank line, the file check lines in declared table order, a
blank line, the database note, a blank line, and the summary block. -/
theorem c4_output_order (fs : FS) :
    pyOutput fs =
      headerLines ++ dirLines fs ++ [""] ++ fileLines fs ++ [""]
        ++ dbBlock fs ++ [""] ++ summaryBlock fs
    ∧ dirLines fs = directories.map
        (fun e => (check_directory_exists fs (pathJoin base_dir e.1) e.2).2)
    ∧ fileLines fs = files.map
        (fun e => (check_file_exists fs (pathJoin base_dir e.1) e.2).2) := by
  refine ⟨?_, (dirLines_eq fs).symm, (fileLines_eq fs).symm⟩
  unfold pyOutput
  rw [pymain_eq fs]

/-- C5: each checker produces the boolean of the underlying existence test
together with exactly one line made of the status glyph matching that
boolean, a space, the label, a colon and space, and the full path. -/
theorem c5_check_line_format (fs : FS) (p d : String) :
    check_file_exists fs p d
      = (osPathExists fs p,
          (if osPathExists fs p then "✓" else "✗") ++ " " ++ d ++ ": " ++ p)
    ∧ check_directory_exists fs p d
      = (osPathIsDir fs p,
          (if osPathIsDir fs p then "✓" else "✗") ++ " " ++ d ++ ": " ++ p)
    ∧ (check_file_exists fs p d).2
      = (if (check_file_exists fs p d).1 then "✓" else "✗")
          ++ " " ++ d ++ ": " ++ p
    ∧ (check_directory_exists fs p d).2
      = (if (check_directory_exists fs p d).1 then "✓" else "✗")
          ++ " " ++ d ++ ": " ++ p :=
  ⟨rfl, rfl, rfl, rfl⟩

/-- C6: when the database file is absent, the database section is the
advisory glyph line and the first-run note; the exit status is computed from
the directory and file result sequences alone; and the database path is not
among the directory-table paths nor the file-table paths. -/
theorem c6_db_advisory (fs : FS) (h : osPathExists fs dbFull = false) :
    dbBlock fs =
      [ "⚠️ Database File: " ++ dbFull,
        "   Note: Database will be created on first run" ]
    ∧ pyExit fs =
        (if (dirResults fs).all id && (fileResults fs).all id then 0 else 1)
    ∧ dbFull ∉ directories.map (fun e => pathJoin base_dir e.1)
    ∧ dbFull ∉ files.map (fun e => pathJoin base_dir e.1) := by
  refine ⟨by simp [dbBlock, h], ?_, by decide, by decide⟩
  unfold pyExit
  rw [pymain_eq fs]

/-- C6 witness: on the empty filesystem the database section is the advisory
glyph and note, the exit status is the one computed from the two result
sequences, and the database path is in neither table. -/
theorem c6_witness :
    dbBlock fsEmpty =
      [ "⚠️ Database File: " ++ dbFull,
        "   Note: Database will be created on first run" ]
    ∧ pyExit fsEmpty =
        (if (dirResults fsEmpty).all id && (fileResults fsEmpty).all id
          then 0 else 1)
    ∧ dbFull ∉ directories.map (fun e => pathJoin base_dir e.1)
    ∧ dbFull ∉ files.map (fun e => pathJoin base_dir e.1) :=
  c6_db_advisory fsEmpty rfl

/-- C7: the directory loop collects one boolean per directory-table entry
and the file loop one boolean per file-table entry, in table order; the
tables have nine and eleven entries, the result sequences have lengths nine
and eleven, and the i-th result is the checker applied to the i-th entry. -/
theorem c7_batch_runner (fs : FS) :
    dirResults fs = directories.map
      (fun e => (check_directory_exists fs (pathJoin base_dir e.1) e.2).1)
    ∧ fileResults fs = files.map
        (fun e => (check_file_exists fs (pathJoin base_dir e.1) e.2).1)
    ∧ (dirResults fs).length = 9 ∧ (fileResults fs).length = 11
    ∧ directories.length = 9 ∧ files.length = 11
    ∧ (∀ i (hi : i < (dirResults fs).length) (hj : i < directories.length),
        (dirResults fs).get ⟨i, hi⟩
          = (check_directory_exists fs
              (pathJoin base_dir (directories.get ⟨i, hj⟩).1)
              (directories.get ⟨i, hj⟩).2).1)
    ∧ (∀ i (hi : i < (fileResults fs).length) (hj : i < files.length),
        (fileResults fs).get ⟨i, hi⟩
          = (check_file_exists fs
              (pathJoin base_dir (files.get ⟨i, hj⟩).1)
              (files.get ⟨i, hj⟩).2).1) := by
  refine ⟨(dirResults_eq fs).symm, (fileResults_eq fs).symm,
    by simp [dirResults, directories], by simp [fileResults, files],
    rfl, rfl, ?_, ?_⟩
  · intro i hi hj
    simp [dirResults, List.get_eq_getElem, List.getElem_map,
      check_directory_exists]
  · intro i hi hj
    simp [fileResults, List.get_eq_getElem, List.getElem_map,
      check_file_exists]

/-- C7 witness: on the empty filesystem the result sequences have lengths
nine and eleven, and the first directory result is the checker applied to
the first table entry. -/
theorem c7_witness :
    (dirResults fsEmpty).length = 9 ∧ (fileResults fsEmpty).length = 11 ∧
    (dirResults fsEmpty).get ⟨0, by decide⟩
      = (check_directory_exists fsEmpty
          (pathJoin base_dir (directories.get ⟨0, by decide⟩).1)
          (directories.get ⟨0, by decide⟩).2).1 := by
  have h := c7_batch_runner fsEmpty
  exact ⟨h.2.2.1, h.2.2.2.1, h.2.2.2.2.2.2.1 0 (by decide) (by decide)⟩

/-- C8: the program is a function of the filesystem state alone: two states
with the same entries give identical results, so a second run against an
unchanged filesystem repeats the same output and exit status. -/
theorem c8_deterministic (fs1 fs2 : FS) (h : fs1.entry = fs2.entry) :
    pymain fs1 = pymain fs2
    ∧ pyOutput fs1 = pyOutput fs2
    ∧ pyExit fs1 = pyExit fs2 := by
  have hfs : fs1 = fs2 := by
    cases fs1
    cases fs2
    simpa using h
  subst hfs
  exact ⟨rfl, rfl, rfl⟩

/-- C8 witness: a repeated run on the empty filesystem is identical. -/
theorem c8_witness :
    pymain fsEmpty = pymain fsEmpty
    ∧ pyOutput fsEmpty = pyOutput fsEmpty
    ∧ pyExit fsEmpty = pyExit fsEmpty :=
  c8_deterministic fsEmpty fsEmpty rfl

/-- C9: every run opens with the title line and a separator of fifty equals
signs, and only after these two lines do the directory check lines start. -/
theorem c9_header (fs : FS) :
    (pyOutput fs).take 2
      = ["Financial Aid Assistant - Structure Verification", pyStrMul "=" 50]
    ∧ (pyStrMul "=" 50).data = List.replicate 50 '='
    ∧ ∃ rest, pyOutput fs = headerLines ++ dirLines fs ++ rest := by
  have hout : pyOutput fs
      = headerLines ++ dirLines fs ++ [""] ++ fileLines fs ++ [""]
          ++ dbBlock fs ++ [""] ++ summaryBlock fs := by
    unfold pyOutput
    rw [pymain_eq fs]
  refine ⟨?_, by decide, ?_⟩
  · rw [hout]
    simp [headerLines]
  · exact ⟨[""] ++ fileLines fs ++ [""] ++ dbBlock fs ++ [""]
      ++ summaryBlock fs, by rw [hout]; simp⟩

/-- C10: the database advisory check accepts any entry kind at the database
path: an entry of any kind there makes the existence test true and the
database section a single success line without the first-run note. -/
theorem c10_db_check_any_entry (fs : FS) (k : EntryKind)
    (h : fs.entry dbFull = some k) :
    osPathExists fs dbFull = true
    ∧ dbBlock fs = ["✓ Database File: " ++ dbFull] := by
  have he : osPathExists fs dbFull = true := by simp [osPathExists, h]
  exact ⟨he, by simp [dbBlock, he]⟩

/-- C10 witness: with a directory at the database path, the advisory check
reports the database as present and prints no note. -/
theorem c10_witness :
    osPathExists fsDbDir dbFull = true
    ∧ dbBlock fsDbDir = ["✓ Database File: " ++ dbFull] :=
  c10_db_check_any_entry fsDbDir EntryKind.dir (by decide)
